import Mathlib

/-!
Verification of the velvet datatype sniffers and composite-dataset logic of
`lib/galaxy/datatypes/assembly.py`.

File contents are embedded as `List Char`.  Python's text-mode line splitting,
`str.strip()`, and the concrete regular expressions used by the code are
translated to executable Lean functions below; each definition carries a note
pointing at the Python construct it embeds.
-/

/-- Abbreviation turning a string literal into the character list we compute on. -/
def str (x : String) : List Char := x.toList

/-- The characters Python's `str.strip()` removes and `\S` excludes
(space, tab, newline, carriage return, form feed, vertical tab). -/
def isPySpace (c : Char) : Bool :=
  c = ' ' || c = '\t' || c = '\n' || c = '\x0d' || c = '\x0c' || c = '\x0b'

/-- Python `str.strip()`: drop whitespace from both ends. -/
def pyStrip (l : List Char) : List Char :=
  ((l.dropWhile isPySpace).reverse.dropWhile isPySpace).reverse

/-- Modelled from the spec: the host `FilePrefixView` ("a bounded, read-only
view over the leading portion of a file, exposing line-by-line and whole-text
iteration; iteration order equals on-disk byte order; no line is synthesized").
The host hands the sniffers a Python file-like object over the prefix text, so
lines are produced the way Python text iteration produces them: every line
keeps its trailing newline, a final fragment without a newline is still a line,
and empty text yields no lines. -/
def pyLines : List Char → List (List Char)
  | [] => []
  | c :: cs =>
    match pyLines cs with
    | [] => [[c]]
    | l :: ls => if c = '\n' then [c] :: l :: ls else (c :: l) :: ls

/-- Split a line at tab characters (used to evaluate the tab-separated
regular expressions below; a `\d+` or `[^\t]+` group is exactly one
tab-free field). -/
def splitTab : List Char → List (List Char)
  | [] => [[]]
  | c :: cs =>
    match splitTab cs with
    | [] => [[c]]
    | p :: ps => if c = '\t' then [] :: p :: ps else (c :: p) :: ps

/-- `\d+`: a non-empty run of decimal digits. -/
def digitsNE (l : List Char) : Bool := !l.isEmpty && l.all Char.isDigit

namespace Amos

/-- `re.match(r"{(RED|CTG|TLE)$", line)` on the already-stripped line:
the line is exactly one of the three tokens. -/
def tokenMatch (l : List Char) : Bool :=
  l == str "\x7bRED" || l == str "\x7bCTG" || l == str "\x7bTLE"

/-- The loop body of `Amos.sniff_prefix`:
`for line in file_prefix.line_iterator(): if not line: break;
line = line.strip(); if line: if line.startswith("\x7b"):
if re.match(...): return True` — note that a non-empty line that fails the
token test does NOT return False; the scan continues with the next line. -/
def loop : List (List Char) → Bool
  | [] => false
  | line :: rest =>
    if line.isEmpty then false
    else
      let l := pyStrip line
      if l.isEmpty then loop rest
      else if l.headD ' ' = '\x7b' then
        if tokenMatch l then true else loop rest
      else loop rest

/-- `Amos.sniff_prefix` over the prefix text. -/
def sniff (t : List Char) : Bool := loop (pyLines t)

end Amos

/-- `re.match(r">[^\t]+\t\d+\t\d+$", line)` on the stripped line:
`>` then a non-empty tab-free name, a tab, digits, a tab, digits, end. -/
def fastaHeaderMatch (l : List Char) : Bool :=
  match l with
  | [] => false
  | c :: rest =>
    if c = '>' then
      match splitTab rest with
      | [name, d1, d2] => !name.isEmpty && digitsNE d1 && digitsNE d2
      | _ => false
    else false

namespace Sequences

/-- The body executed at the first non-empty stripped line `l` of
`Sequences.sniff_prefix`, with `rest` the lines still unread (so
`rest.headD []` is `fh.readline()`, which is `""` at EOF):
if the line starts with `>` it must match the header pattern, and the
next raw line must strip to something non-empty not starting with `>`. -/
def check (l : List Char) (rest : List (List Char)) : Bool :=
  if l.headD ' ' = '>' then
    if !fastaHeaderMatch l then false
    else
      let nxt := pyStrip (rest.headD [])
      if nxt.isEmpty then false
      else if nxt.headD ' ' = '>' then false
      else true
  else false

/-- The loop of `Sequences.sniff_prefix`: blank lines are skipped
(`if line:` has no else branch), the first non-empty stripped line is
examined by `check`. -/
def loop : List (List Char) → Bool
  | [] => false
  | line :: rest =>
    let l := pyStrip line
    if l.isEmpty then loop rest
    else check l rest

/-- `Sequences.sniff_prefix` over the prefix text. -/
def sniff (t : List Char) : Bool := loop (pyLines t)

end Sequences

/-- `re.match(r"\d+\t\d+\t\d+$", line)` on the stripped line:
three tab-separated non-empty digit runs and nothing else. -/
def roadmapHeaderMatch (l : List Char) : Bool :=
  match splitTab l with
  | [a, b, c] => digitsNE a && digitsNE b && digitsNE c
  | _ => false

/-- `re.match(r"ROADMAP \d+$", line)` on the stripped line. -/
def roadmapSecondMatch (l : List Char) : Bool :=
  (str "ROADMAP ").isPrefixOf l && digitsNE (l.drop 8)

namespace Roadmaps

/-- The loop of `Roadmaps.sniff_prefix`: unlike `Sequences`, the very first
line decides — `if line: ... else: return False`, so a blank first line
returns False immediately rather than being skipped. -/
def loop : List (List Char) → Bool
  | [] => false
  | line :: rest =>
    let l := pyStrip line
    if l.isEmpty then false
    else if roadmapHeaderMatch l then roadmapSecondMatch (pyStrip (rest.headD []))
    else false

/-- `Roadmaps.sniff_prefix` over the prefix text. -/
def sniff (t : List Char) : Bool := loop (pyLines t)

end Roadmaps

/-- Modelled from the spec: a `CompositeManifestEntry`
(`\x7bname, description (optional string), isOptional\x7d`) as registered by the
host's `add_composite_file`; the ordered collection preserves insertion
order.  `optional` mirrors the `optional="True"` keyword, `description` the
`description=...` keyword of the registration calls in `Velvet.__init__`. -/
structure CompositeFile where
  name : List Char
  description : List Char
  optional : Bool
deriving DecidableEq

/-- The three sub-files `Velvet.__init__` registers, in registration order:
Sequences, Roadmaps, and the optional Log. -/
def velvetFiles : List CompositeFile :=
  [⟨str "Sequences", str "Sequences", false⟩,
   ⟨str "Roadmaps", str "Roadmaps", false⟩,
   ⟨str "Log", str "Log", true⟩]

/-- One `<li>` manifest line, as built by the loop bodies of both
`generate_primary_file` and `regenerate_primary_file` (they are identical):
a link for the file name, the description in parentheses when it is
non-empty (Python truthiness of `composite_file.get("description")`),
and the suffix " (optional)" when the entry is optional. -/
def renderLi (cf : CompositeFile) : List Char :=
  let opt_text := if cf.optional then str " (optional)" else []
  if !cf.description.isEmpty then
    str "<li><a href=\"" ++ cf.name ++ str "\" type=\"text/plain\">" ++ cf.name ++
      str " (" ++ cf.description ++ str ")</a>" ++ opt_text ++ str "</li>"
  else
    str "<li><a href=\"" ++ cf.name ++ str "\" type=\"text/plain\">" ++ cf.name ++
      str "</a>" ++ opt_text ++ str "</li>"

namespace Velvet

/-- The list `rval` built by `Velvet.generate_primary_file` before the final
`"\n".join(rval)`: a fixed header, a fixed intro line, one `<li>` per
composite file in declaration order, and the closing line. -/
def genLines (files : List CompositeFile) : List (List Char) :=
  str "<html><head><title>Velvet Galaxy Composite Dataset </title></head><p/>" ::
  str "<div>This composite dataset is composed of the following files:<p/><ul>" ::
  (files.map renderLi ++ [str "</ul></div></html>"])

/-- `Velvet.generate_primary_file`: `"\n".join(rval)` over `genLines`
applied to the declared composite files. -/
def generate_primary_file : List Char :=
  (genLines velvetFiles).intersperse (str "\n") |>.flatten

end Velvet

/-- `re.search` of an alternation of literal strings: true iff some
alternative occurs at some position of `s`.  The patterns the code searches
(`-(short|long)Paired`, `-long`, `-short(Paired)?2`) are alternations of
literals, so this captures their `re.search` exactly. -/
def reSearch (alts : List (List Char)) (s : List Char) : Bool :=
  (List.range (s.length + 1)).any fun i => alts.any fun a => a.isPrefixOf (s.drop i)

/-- Plain substring containment, used to state the spec's
"the cleaned text contains ...". -/
def containsSub (a s : List Char) : Bool :=
  (List.range (s.length + 1)).any fun i => a.isPrefixOf (s.drop i)

/-- Helper for `re.sub(r"/\S*/", "", ...)`: given the characters after an
opening `/`, find the closing `/` the greedy `\S*` backtracks to — the last
`/` inside the maximal run of non-whitespace characters.  Returns the
remainder after that closing slash, or `none` when no match closes here. -/
def pathClose (rest : List Char) : Option (List Char) :=
  let run := rest.takeWhile fun c => !isPySpace c
  match ((List.range run.length).filter fun p => run.getD p ' ' = '/').getLast? with
  | some p => some (rest.drop (p + 1))
  | none => none

/-- Fuelled scan for `re.sub(r"/\S*/", "", log_content)`: at each position,
if a `/\S*/` match starts here, delete it and resume after it; otherwise
keep the character and move on.  Every step consumes at least one input
character, so fuel = input length suffices. -/
def stripPathsFuel : Nat → List Char → List Char
  | 0, l => l
  | _ + 1, [] => []
  | fuel + 1, c :: rest =>
    if c = '/' then
      match pathClose rest with
      | some rest' => stripPathsFuel fuel rest'
      | none => c :: stripPathsFuel fuel rest
    else c :: stripPathsFuel fuel rest

/-- `log_msg = re.sub(r"/\S*/", "", log_content)`. -/
def stripPaths (l : List Char) : List Char := stripPathsFuel l.length l

/-- `re.sub(r"\n", " ", log_msg)`. -/
def collapseNewlines (l : List Char) : List Char :=
  l.map fun c => if c = '\n' then ' ' else c

/-- Does a `velveth \S+` occurrence start at position `p` of `s`?
(literal `velveth ` followed by at least one non-whitespace character). -/
def velvethAt (s : List Char) (p : Nat) : Bool :=
  (str "velveth ").isPrefixOf (s.drop p) &&
    match s.drop (p + 8) with
    | [] => false
    | c :: _ => !isPySpace c

/-- The greedy `.*` of `re.sub(r".*velveth \S+", "hash_length", s)` reaches
the LAST position where `velveth \S+` can match. -/
def lastVelvethMatch (s : List Char) : Option Nat :=
  ((List.range (s.length + 1)).filter (velvethAt s)).getLast?

/-- Fuelled scan for `re.sub(r".*velveth \S+", "hash_length", s)` on
newline-free text: if a match exists, it swallows everything up to the end
of the maximal `\S+` run after the last `velveth ` occurrence, is replaced
by `hash_length`, and scanning resumes after it; otherwise the text is
unchanged.  Every replacement consumes at least one character, so fuel =
input length + 1 suffices. -/
def velvethSubFuel : Nat → List Char → List Char
  | 0, s => s
  | fuel + 1, s =>
    match lastVelvethMatch s with
    | none => s
    | some p =>
      let after := s.drop (p + 8)
      let run := after.takeWhile fun c => !isPySpace c
      str "hash_length" ++ velvethSubFuel fuel (after.drop run.length)

/-- `dataset.info = re.sub(r".*velveth \S+", "hash_length", re.sub(r"\n", " ", log_msg))`. -/
def velvethSub (s : List Char) : List Char := velvethSubFuel (s.length + 1) s

/-- The three boolean metadata flags set by `regenerate_primary_file`. -/
structure VelvetFlags where
  paired_end_reads : Bool
  long_reads : Bool
  short2_reads : Bool
deriving DecidableEq

/-- The `MetadataElement` defaults (`default="False"` for all three flags),
in effect when the `try` block fails before assigning them. -/
def defaultVelvetFlags : VelvetFlags := ⟨false, false, false⟩

namespace Velvet

/-- The body of the `try` block of `regenerate_primary_file`, as a function
of the log text: `log_content = f.read(1000)`, path fragments stripped,
the three `re.search` flags, `dataset.info`, and the `gen_msg` caption.
Returns (flags, info, gen_msg). -/
def deriveAll (logContent : List Char) : VelvetFlags × List Char × List Char :=
  let log_msg := stripPaths (logContent.take 1000)
  let paired_end_reads := reSearch [str "-shortPaired", str "-longPaired"] log_msg
  let long_reads := reSearch [str "-long"] log_msg
  let short2_reads := reSearch [str "-shortPaired2", str "-short2"] log_msg
  let info := velvethSub (collapseNewlines log_msg)
  let gen_msg1 := if paired_end_reads then ([] : List Char) ++ str " Paired-End Reads" else []
  let gen_msg2 := if long_reads then gen_msg1 ++ str " Long Reads" else gen_msg1
  let gen_msg := if 0 < gen_msg2.length then str "Uses: " ++ gen_msg2 else gen_msg2
  (⟨paired_end_reads, long_reads, short2_reads⟩, info, gen_msg)

/-- The whole `try`/`except` of `regenerate_primary_file`: `none` models an
absent or unreadable Log file (the `open` raises, the broad `except` arm
swallows the error), in which case the metadata keeps its all-false
defaults, `dataset.info` is never assigned (`none`), and `gen_msg` stays
empty.  With a readable log (`some`), the `try` body `deriveAll` runs. -/
def logDerivation : Option (List Char) → VelvetFlags × Option (List Char) × List Char
  | none => (defaultVelvetFlags, none, [])
  | some lc => let r := deriveAll lc; (r.1, some r.2.1, r.2.2)

/-- The list `rval` built by `regenerate_primary_file` as a function of the
caption `gen_msg`: header, caption line, intro line, one `<li>` per
composite file whose name does not contain `Log`
(`re.search("Log", fn) is None`), and the closing line. -/
def mkRegenLines (gen_msg : List Char) : List (List Char) :=
  str "<html><head><title>Velvet Galaxy Composite Dataset </title></head><p/>" ::
  (str "<div>Generated:<p/> " ++ gen_msg ++ str " </div>") ::
  str "<div>Velveth dataset:<p/><ul>" ::
  ((velvetFiles.filter fun cf => !containsSub (str "Log") cf.name).map renderLi ++
    [str "</ul></div></html>"])

/-- The lines of `regenerate_primary_file`'s output for a given (present or
absent) Log file content. -/
def regenLines (logContent : Option (List Char)) : List (List Char) :=
  mkRegenLines (logDerivation logContent).2.2

/-- `regenerate_primary_file`'s written primary file:
`"\n".join(rval)` plus the final `f.write("\n")`. -/
def regenerate_primary_file (logContent : Option (List Char)) : List Char :=
  ((regenLines logContent).intersperse (str "\n")).flatten ++ str "\n"

end Velvet

/-- The spec's reading of the Amos sniffer, for comparison with the code:
only the first non-empty line (after stripping) is inspected, and the result
is whether that line is exactly one of the three tokens. -/
def amosFirstNonEmptySpec (t : List Char) : Bool :=
  match ((pyLines t).map pyStrip).filter (fun l => !l.isEmpty) with
  | [] => false
  | l :: _ => Amos.tokenMatch l

/-- The spec's reading of the Roadmaps sniffer, for comparison with the
code: blank lines are skipped, the FIRST NON-EMPTY line must match
`\d+\t\d+\t\d+$`, and the line after it must match `ROADMAP \d+$`. -/
def roadmapsFirstNonEmptySpec (t : List Char) : Bool :=
  match (pyLines t).dropWhile (fun l => (pyStrip l).isEmpty) with
  | [] => false
  | l0 :: rest =>
    roadmapHeaderMatch (pyStrip l0) && roadmapSecondMatch (pyStrip (rest.headD []))

example :
    (Velvet.deriveAll (str "velveth -shortPaired2 -long /some/path/x")).1 =
      ⟨true, true, true⟩ := by decide

example :
    stripPaths (str "velveth -shortPaired2 -long /some/path/x") =
      str "velveth -shortPaired2 -long x" := by decide

example :
    velvethSub (str "xx velveth 21 rest") = str "hash_length rest" := by decide

example : Amos.sniff (str "\x7bCTG\niid:1\n") = true := by decide
example : Amos.sniff (str "\x7bREDX\n") = false := by decide
example : Amos.sniff (str "foo\n\x7bRED\n") = true := by decide
example : Sequences.sniff (str ">seq1\t1\t1\nACGT\n") = true := by decide
example : Sequences.sniff (str ">seq1 1 1\nACGT\n") = false := by decide
example : Roadmaps.sniff (str "142858\t21\t1\nROADMAP 1\n") = true := by decide
example : Roadmaps.sniff (str "\n142858\t21\t1\nROADMAP 1\n") = false := by decide

/-- Python text-mode iteration never yields an empty line: every line holds
at least one character (its newline, or the characters of a final fragment).
Hence the `if not line: break` guard in `Amos.sniff_prefix` never fires. -/
theorem pyLines_ne_nil (t : List Char) : ∀ l ∈ pyLines t, l ≠ [] := by
  induction t with
  | nil => simp [pyLines]
  | cons c cs ih =>
    intro l hl
    rw [pyLines] at hl
    split at hl
    · simp only [List.mem_singleton] at hl
      simp [hl]
    · next x xs heq =>
      split at hl
      · rcases List.mem_cons.mp hl with h | h
        · simp [h]
        · exact ih l (by rw [heq]; exact h)
      · rcases List.mem_cons.mp hl with h | h
        · simp [h]
        · exact ih l (by rw [heq]; exact List.mem_cons_of_mem _ h)

/-- A stripped line that is one of the Amos tokens is non-empty and starts
with the opening brace (so the `startswith` guard cannot reject it). -/
theorem tokenMatch_shape (l : List Char) (h : Amos.tokenMatch l = true) :
    l.isEmpty = false ∧ l.headD ' ' = '\x7b' := by
  have h3 : l = str "\x7bRED" ∨ l = str "\x7bCTG" ∨ l = str "\x7bTLE" := by
    simpa [Amos.tokenMatch, Bool.or_eq_true, beq_iff_eq, or_assoc] using h
  rcases h3 with h | h | h <;> subst h <;> exact ⟨rfl, rfl⟩

/-- The Amos scan over lines that are never empty returns true iff some
line strips to a token: a non-matching non-empty line does not stop it. -/
theorem amosLoop_any (ls : List (List Char)) (hne : ∀ l ∈ ls, l ≠ []) :
    Amos.loop ls = ls.any fun l => Amos.tokenMatch (pyStrip l) := by
  induction ls with
  | nil => rfl
  | cons line rest ih =>
    have hl : line.isEmpty = false := by
      cases line with
      | nil => exact absurd rfl (hne [] (by simp))
      | cons a as => rfl
    have hrest := fun l hl => hne l (List.mem_cons_of_mem _ hl)
    by_cases htok : Amos.tokenMatch (pyStrip line) = true
    · have hs := tokenMatch_shape _ htok
      have hh : (pyStrip line).head?.getD ' ' = '\x7b' := by
        simpa [List.headD_eq_head?_getD] using hs.2
      simp [Amos.loop, hl, hs.1, hh, htok]
    · have htok' : Amos.tokenMatch (pyStrip line) = false := by
        simpa using htok
      by_cases hse : (pyStrip line).isEmpty
      · simp [Amos.loop, hl, hse, htok', ih hrest]
      · by_cases hb : (pyStrip line).headD ' ' = '\x7b' <;>
          simp [Amos.loop, hl, hse, hb, htok', ih hrest]

example : pyLines (str "a\nb") = [str "a\n", str "b"] := by decide
example : pyLines (str "a\n\n") = [str "a\n", str "\n"] := by decide
example : pyLines (str "") = [] := by decide
example : pyStrip (str " \t x y \n") = str "x y" := by decide
example : splitTab (str "12\t3\t4") = [str "12", str "3", str "4"] := by decide
example : splitTab (str "12 3 4") = [str "12 3 4"] := by decide

/-- A line matching the velveth FASTA header pattern starts with `>`. -/
theorem fastaHeaderMatch_head (l : List Char) (h : fastaHeaderMatch l = true) :
    l.headD ' ' = '>' := by
  cases l with
  | nil => exact absurd h (by simp [fastaHeaderMatch])
  | cons c rest =>
    by_cases hc : c = '>'
    · simp [List.headD, hc]
    · exact absurd h (by simp [fastaHeaderMatch, hc])

/-- The Sequences per-line body, rewritten as the conjunction the spec
states: header pattern, then a non-empty next line not starting with `>`. -/
theorem sequencesCheck_eq (l : List Char) (rest : List (List Char)) :
    Sequences.check l rest =
      (fastaHeaderMatch l && !(pyStrip (rest.headD [])).isEmpty &&
        !((pyStrip (rest.headD [])).headD ' ' == '>')) := by
  by_cases hm : fastaHeaderMatch l = true
  · have hh := fastaHeaderMatch_head l hm
    simp only [Sequences.check]
    split_ifs with hgt hnm h1 <;> simp_all [beq_iff_eq]
  · have hm' : fastaHeaderMatch l = false := by simpa using hm
    have hc : Sequences.check l rest = false := by
      simp [Sequences.check, hm']
    rw [hc, hm']
    rfl

/-- The Sequences loop skips blank lines and hands the first non-empty
stripped line (with the unread remainder) to the per-line body. -/
theorem sequencesLoop_eq (ls : List (List Char)) :
    Sequences.loop ls =
      match ls.dropWhile (fun l => (pyStrip l).isEmpty) with
      | [] => false
      | l0 :: rest => Sequences.check (pyStrip l0) rest := by
  induction ls with
  | nil => rfl
  | cons line rest ih =>
    by_cases he : (pyStrip line).isEmpty
    · simp [Sequences.loop, List.dropWhile_cons, he, ih]
    · simp [Sequences.loop, List.dropWhile_cons, he]

/-- `re.search` of an alternation of literals succeeds iff one of the
literals is contained in the text. -/
theorem reSearch_eq_contains (alts : List (List Char)) (s : List Char) :
    reSearch alts s = alts.any fun a => containsSub a s := by
  rw [Bool.eq_iff_iff]
  simp only [reSearch, containsSub, List.any_eq_true]
  constructor
  · rintro ⟨i, hi, a, ha, hp⟩
    exact ⟨a, ha, i, hi, hp⟩
  · rintro ⟨a, ha, i, hi, hp⟩
    exact ⟨i, hi, a, ha, hp⟩

/-- The caption line of the regenerated page never starts with `<li`,
whatever the derived caption is, so the `<li>` lines of the page are
exactly the rendered non-Log composite files. -/
theorem mkRegenLines_li (g : List Char) :
    (Velvet.mkRegenLines g).filter (fun l => (str "<li").isPrefixOf l) =
      [renderLi ⟨str "Sequences", str "Sequences", false⟩,
       renderLi ⟨str "Roadmaps", str "Roadmaps", false⟩] := rfl

/-- C1 (counterexample): the claim says only the first non-empty line is
inspected — then `X\n\x7bRED\n` must sniff false, its first non-empty line
being `X`.  The code returns true: its scan continues past the
non-matching line and accepts the later `\x7bRED` line. -/
theorem amos_first_nonempty_claim_false :
    Amos.sniff (str "X\n\x7bRED\n") = true ∧
      amosFirstNonEmptySpec (str "X\n\x7bRED\n") = false := by decide

/-- C1 (amended): the Amos sniffer returns true iff SOME line of the
prefix strips to exactly `\x7bRED`, `\x7bCTG` or `\x7bTLE`; scanning does not
stop at the first non-empty line, and empty input gives false (empty
input has no lines, so the right-hand side is vacuously false). -/
theorem amos_sniff_true_iff_some_token_line (t : List Char) :
    Amos.sniff t = true ↔
      ∃ l ∈ pyLines t,
        pyStrip l = str "\x7bRED" ∨ pyStrip l = str "\x7bCTG" ∨
          pyStrip l = str "\x7bTLE" := by
  show Amos.loop (pyLines t) = true ↔ _
  rw [amosLoop_any (pyLines t) (pyLines_ne_nil t)]
  simp [List.any_eq_true, Amos.tokenMatch, Bool.or_eq_true, beq_iff_eq, or_assoc]

/-- C1 (amended) witness at a concrete input. -/
theorem amos_sniff_true_iff_some_token_line_witness :
    Amos.sniff (str "X\n\x7bCTG\n") = true :=
  (amos_sniff_true_iff_some_token_line (str "X\n\x7bCTG\n")).mpr
    ⟨str "\x7bCTG\n", by decide, by decide⟩

/-- C10: the Amos scan survives non-matching non-empty lines — the sniffer
returns true exactly when any scanned line of the prefix strips to one of
the three tokens, even when earlier non-empty lines do not match. -/
theorem amos_sniff_eq_any_token_line (t : List Char) :
    Amos.sniff t = ((pyLines t).any fun l => Amos.tokenMatch (pyStrip l)) :=
  amosLoop_any (pyLines t) (pyLines_ne_nil t)

/-- C2 (counterexample): the claim says the FIRST NON-EMPTY line is matched
against `\d+\t\d+\t\d+$` — then `\n142858\t21\t1\nROADMAP 1\n` (leading
blank line) must sniff true.  The code returns false: a first line that
strips to empty hits the `else: return False` branch, blank lines are not
skipped. -/
theorem roadmaps_first_nonempty_claim_false :
    Roadmaps.sniff (str "\n142858\t21\t1\nROADMAP 1\n") = false ∧
      roadmapsFirstNonEmptySpec (str "\n142858\t21\t1\nROADMAP 1\n") = true := by
  decide

/-- C2 (amended): the Roadmaps sniffer returns true iff the FIRST line of
the prefix strips to a non-empty match of `\d+\t\d+\t\d+$` and the second
line (empty at end-of-input), after trimming, matches `ROADMAP \d+$`;
at most two lines are examined and a fully empty file returns false.
The spec's stated examples also hold. -/
theorem roadmaps_sniff_first_line_characterization :
    (∀ t : List Char,
      Roadmaps.sniff t =
        match pyLines t with
        | [] => false
        | l0 :: rest =>
          !(pyStrip l0).isEmpty && roadmapHeaderMatch (pyStrip l0) &&
            roadmapSecondMatch (pyStrip (rest.headD []))) ∧
    Roadmaps.sniff (str "142858\t21\t1\nROADMAP 1\n") = true ∧
    Roadmaps.sniff (str "142858 21 1\nROADMAP 1\n") = false ∧
    Roadmaps.sniff (str "142858\t21\t1\nROADMAP x\n") = false := by
  refine ⟨?_, by decide, by decide, by decide⟩
  intro t
  cases h : pyLines t with
  | nil => simp [Roadmaps.sniff, h, Roadmaps.loop]
  | cons l0 rest =>
    simp only [Roadmaps.sniff, h]
    by_cases he : (pyStrip l0).isEmpty
    · simp [Roadmaps.loop, he]
    · by_cases hh : roadmapHeaderMatch (pyStrip l0) = true <;>
        simp [Roadmaps.loop, he, hh]

/-- C3: the Sequences sniffer returns true iff the first non-empty line
(blank lines skipped) strips to a match of `>[^\t]+\t\d+\t\d+$` (which in
particular starts with `>`), and the immediately following raw line (not
skipping blanks; empty at end-of-input) strips to something non-empty that
does not start with `>`.  The spec's stated examples also hold. -/
theorem sequences_sniff_characterization :
    (∀ t : List Char,
      Sequences.sniff t =
        match (pyLines t).dropWhile (fun l => (pyStrip l).isEmpty) with
        | [] => false
        | l0 :: rest =>
          fastaHeaderMatch (pyStrip l0) &&
            !(pyStrip (rest.headD [])).isEmpty &&
            !((pyStrip (rest.headD [])).headD ' ' == '>')) ∧
    Sequences.sniff (str ">seq1\t1\t1\nACGT\n") = true ∧
    Sequences.sniff (str ">seq1 1 1\nACGT\n") = false ∧
    Sequences.sniff (str ">seq1\t1\t1\n\n") = false ∧
    Sequences.sniff (str ">seq1\t1\t1\n>seq2\t2\t1\nACGT\n") = false := by
  refine ⟨?_, by decide, by decide, by decide, by decide⟩
  intro t
  show Sequences.loop (pyLines t) = _
  rw [sequencesLoop_eq]
  cases h : (pyLines t).dropWhile (fun l => (pyStrip l).isEmpty) with
  | nil => rfl
  | cons l0 rest => exact sequencesCheck_eq (pyStrip l0) rest

/-- C4: for every log text, after truncation to 1000 characters and path
stripping (`re.sub(r"/\S*/", "", ...)`), the paired-end flag is set iff the
cleaned text contains `-shortPaired` or `-longPaired`, the long-reads flag
iff it contains `-long`, and the short2 flag iff it contains `-short2` or
`-shortPaired2`; on `velveth -shortPaired2 -long /some/path/x` all three
flags come out true. -/
theorem velvet_flag_derivation_characterization :
    (∀ lc : List Char,
      (Velvet.deriveAll lc).1 =
        ⟨containsSub (str "-shortPaired") (stripPaths (lc.take 1000)) ||
            containsSub (str "-longPaired") (stripPaths (lc.take 1000)),
          containsSub (str "-long") (stripPaths (lc.take 1000)),
          containsSub (str "-short2") (stripPaths (lc.take 1000)) ||
            containsSub (str "-shortPaired2") (stripPaths (lc.take 1000))⟩) ∧
    (Velvet.deriveAll (str "velveth -shortPaired2 -long /some/path/x")).1 =
      ⟨true, true, true⟩ := by
  refine ⟨?_, by decide⟩
  intro lc
  show (⟨reSearch [str "-shortPaired", str "-longPaired"] (stripPaths (lc.take 1000)),
         reSearch [str "-long"] (stripPaths (lc.take 1000)),
         reSearch [str "-shortPaired2", str "-short2"] (stripPaths (lc.take 1000))⟩ :
        VelvetFlags) = _
  rw [reSearch_eq_contains, reSearch_eq_contains, reSearch_eq_contains]
  simp [List.any_cons, List.any_nil, Bool.or_comm]

/-- C5: when the Log file is absent or unreadable, the `except` arm leaves
the all-false metadata defaults, no `dataset.info` summary is produced, and
the caption is empty; `Velvet.logDerivation` is a total function, so no
error propagates. -/
theorem velvet_absent_log_defaults :
    Velvet.logDerivation none = (defaultVelvetFlags, none, ([] : List Char)) ∧
      defaultVelvetFlags = ⟨false, false, false⟩ :=
  ⟨rfl, rfl⟩

set_option maxRecDepth 10000 in
/-- C6: whatever the Log content (present or absent — the function is total,
so nothing is raised), the `<li>` entries of the regenerated primary file
are exactly the rendered Sequences and Roadmaps entries: the filter
`re.search("Log", fn) is None` drops the Log sub-file, and the listed
entries never mention `Log`. -/
theorem velvet_regenerate_manifest_omits_log :
    (∀ lo : Option (List Char),
      (Velvet.regenLines lo).filter (fun l => (str "<li").isPrefixOf l) =
        [renderLi ⟨str "Sequences", str "Sequences", false⟩,
         renderLi ⟨str "Roadmaps", str "Roadmaps", false⟩]) ∧
    ((velvetFiles.filter fun cf => !containsSub (str "Log") cf.name).map
        CompositeFile.name = [str "Sequences", str "Roadmaps"]) ∧
    containsSub (str "Log")
        (renderLi ⟨str "Sequences", str "Sequences", false⟩ ++
          renderLi ⟨str "Roadmaps", str "Roadmaps", false⟩) = false := by
  refine ⟨fun lo => mkRegenLines_li _, by decide, by decide⟩

/-- C7: the generated primary file lists exactly the declared sub-files
(Sequences, Roadmaps, Log), in declaration order, each exactly once as an
`<li>` link; the suffix " (optional)" appears in an entry iff it is
optional, which holds only for Log.  The output is a function of the
declared entries alone. -/
theorem velvet_generate_lists_all_declared :
    (Velvet.genLines velvetFiles).filter (fun l => (str "<li").isPrefixOf l) =
        velvetFiles.map renderLi ∧
    velvetFiles.map CompositeFile.name =
        [str "Sequences", str "Roadmaps", str "Log"] ∧
    (velvetFiles.map CompositeFile.name).Nodup ∧
    velvetFiles.all
        (fun cf => containsSub (str " (optional)") (renderLi cf) == cf.optional) =
      true ∧
    velvetFiles.all (fun cf => cf.optional == (cf.name == str "Log")) = true := by
  refine ⟨rfl, rfl, by decide, by decide, by decide⟩

/-- C8: the flag-and-summary derivation is a pure function of the log text
read — it depends only on the first 1000 characters (`f.read(1000)`), so
two runs on identical log content produce identical flags, identical
`dataset.info`, and an identical caption. -/
theorem velvet_derivation_pure (l1 l2 : List Char)
    (h : l1.take 1000 = l2.take 1000) :
    Velvet.deriveAll l1 = Velvet.deriveAll l2 := by
  unfold Velvet.deriveAll
  rw [h]

/-- C8 witness at a concrete input. -/
theorem velvet_derivation_pure_witness :
    (str "velveth -long x").take 1000 = (str "velveth -long x").take 1000 ∧
      Velvet.deriveAll (str "velveth -long x") =
        Velvet.deriveAll (str "velveth -long x") :=
  ⟨rfl, velvet_derivation_pure (str "velveth -long x") (str "velveth -long x") rfl⟩

/-- C9: on empty input each of the three sniffers returns false. -/
theorem sniffers_empty_input_false :
    Amos.sniff [] = false ∧ Sequences.sniff [] = false ∧
      Roadmaps.sniff [] = false := by decide
